import Mathlib

/-!
Verification of the EML-Content-Generator message-generation engine
(`email_builder/cli.py`) against its specification.

The Python source is shallowly embedded: the global `random` module is a
deterministic stream of naturals with a cursor, datetimes are UTC epoch
seconds (`Int`), Python floats from `random.random()` are rationals in
`[0,1)`, strings are Lean `String`/`List Char`, and fallible operations
(`raise`, `sys.exit`) return `Except String _`.
-/

set_option autoImplicit false

namespace EmailBuilder

/-- Model of the global `random` generator: a deterministic stream of raw
naturals together with a cursor; each primitive draw consumes one element. -/
structure RandGen where
  stream : Nat → Nat
  pos : Nat

def RandGen.next (g : RandGen) : Nat × RandGen :=
  (g.stream g.pos, { g with pos := g.pos + 1 })

/-- Models `random.randint(a, b)`: for `a ≤ b` the result lies in `[a, b]`. -/
def randint (g : RandGen) (a b : Int) : Int × RandGen :=
  let p := g.next
  (a + Int.ofNat p.1 % (b - a + 1), p.2)

/-- Models `random.random()`: a rational in `[0, 1)` with 53-bit resolution. -/
def randFloat (g : RandGen) : ℚ × RandGen :=
  let (n, g') := g.next
  (((n % 2 ^ 53 : Nat) : ℚ) / (2 ^ 53 : ℚ), g')

/-- Models `random.getrandbits(64)` (used by `email.utils.make_msgid`). -/
def getrandbits64 (g : RandGen) : Nat × RandGen :=
  let (n, g') := g.next
  (n % 2 ^ 64, g')

/-- Models `random.randrange(n)`: a value in `[0, n)` for `n > 0`. -/
def randrange (g : RandGen) (n : Nat) : Nat × RandGen :=
  let (m, g') := g.next
  (m % n, g')

/-- Models `random.choice(items)` on a non-empty list: a uniform index draw. -/
def choiceNE {α : Type} (g : RandGen) (items : List α) (h : items ≠ []) : α × RandGen :=
  let (n, g') := g.next
  (items.get ⟨n % items.length, Nat.mod_lt _ (List.length_pos.mpr h)⟩, g')

/-- A 64-bit LCG step; the concrete stream used to model `random.seed(s)`. -/
def lcgStep (x : Nat) : Nat := (6364136223846793005 * x + 1442695040888963407) % 2 ^ 64

/-- Models `random.seed(seed)`: every later draw is a function of `seed` alone. -/
def seedRng (seed : Nat) : RandGen :=
  ⟨fun n => lcgStep^[n + 1] seed, 0⟩

/-!  ## Weighted selector (cli.py lines 42-47, 263-292)  -/

/-- The fixed attachment-count distribution `ATTACH_COUNT_DIST`
(cli.py lines 42-47); the float weights 0.80/0.15/0.04/0.01 as rationals. -/
def ATTACH_COUNT_DIST : List (Nat × ℚ) :=
  [(1, 80/100), (2, 15/100), (3, 4/100), (4, 1/100)]

/-- The `for item, w in zip(items, weights)` loop of `weighted_choice`
(cli.py lines 270-273): first item whose cumulative weight reaches `r`. -/
def weightedPickLoop (r : ℚ) : ℚ → List (Nat × ℚ) → Option Nat
  | _, [] => none
  | upto, cw :: rest =>
    if upto + cw.2 ≥ r then some cw.1 else weightedPickLoop r (upto + cw.2) rest

/-- Models `weighted_choice(pairs, max_cap)` (cli.py lines 263-274).
`items, weights = zip(*[(c, w) for c, w in pairs if c <= max_cap])` raises
`ValueError` when the filter leaves nothing (unpacking an empty `zip`),
modelled as the error case; it occurs before the `total <= 0` guard and
before any random draw.  The `return items[-1]` fallback after the loop is
`List.getLast`. -/
def weighted_choice (g : RandGen) (pairs : List (Nat × ℚ)) (max_cap : Nat) :
    Except String (Nat × RandGen) :=
  let filtered := pairs.filter (fun cw => cw.1 ≤ max_cap)
  if h : filtered = [] then
    .error "ValueError: not enough values to unpack"
  else
    let total := (filtered.map Prod.snd).sum
    if total ≤ 0 then .ok (1, g)
    else
      let (u, g') := randFloat g
      let r := u * total
      .ok ((weightedPickLoop r 0 filtered).getD (filtered.getLast h).1, g')

/-- Selection mode (`--selection_mode`, "random" or "linear"). -/
inductive SelMode where
  | random
  | linear
  deriving DecidableEq

/-- The `Selector` class (cli.py lines 276-292).  The `_idx` dict with its
`.get(key, 0)` default is modelled as a total function `Nat → Nat`. -/
structure Selector where
  mode : SelMode
  idx : Nat → Nat

def Selector.init (mode : SelMode) : Selector := ⟨mode, fun _ => 0⟩

/-- The cursor update `self._idx[key] = (i + 1) % len(items)` of linear mode. -/
def Selector.bump (s : Selector) (key : Nat) (len : Nat) : Selector :=
  { s with idx := fun k => if k = key then (s.idx key + 1) % len else s.idx k }

/-- `Selector.choose` (cli.py lines 281-292): raises `ValueError` on an empty
list; random mode draws uniformly via `random.choice`; linear mode returns
`items[i % len(items)]` and advances the per-key cursor to
`(i + 1) % len(items)`. -/
def Selector.choose {α : Type} (s : Selector) (g : RandGen) (key : Nat) (items : List α) :
    Except String (α × Selector × RandGen) :=
  if h : items.length = 0 then
    .error "Selection list is empty."
  else if s.mode = .random then
    let (c, g') := choiceNE g items (by
      intro hnil
      exact h (by rw [hnil]; rfl))
    .ok (c, s, g')
  else
    let value := items.get ⟨s.idx key % items.length, Nat.mod_lt _ (Nat.pos_of_ne_zero h)⟩
    .ok (value, s.bump key items.length, g)

/-- `n` consecutive `choose` calls with one key and one item list, collecting
the returned items (stopping early on the error that an empty list raises). -/
def chooseN {α : Type} (key : Nat) (items : List α) :
    Nat → Selector → RandGen → List α × Selector × RandGen
  | 0, s, g => ([], s, g)
  | n + 1, s, g =>
    match s.choose g key items with
    | .error _ => ([], s, g)
    | .ok (v, s', g') => (v :: (chooseN key items n s' g').1, (chooseN key items n s' g').2)

/-!  ## Lemmas about the selector  -/

@[simp] theorem Selector.bump_mode (s : Selector) (key len : Nat) :
    (s.bump key len).mode = s.mode := rfl

@[simp] theorem Selector.bump_idx_self (s : Selector) (key len : Nat) :
    (s.bump key len).idx key = (s.idx key + 1) % len := by
  simp [Selector.bump]

theorem Selector.bump_idx_other (s : Selector) {key k : Nat} (len : Nat) (hk : k ≠ key) :
    (s.bump key len).idx k = s.idx k := by
  simp [Selector.bump, hk]

theorem length_ne_zero_of_ne_nil {α : Type} {items : List α} (h : items ≠ []) :
    ¬items.length = 0 := by
  simpa [List.length_eq_zero] using h

theorem choose_ok_of_ne_nil {α : Type} (s : Selector) (g : RandGen) (key : Nat)
    (items : List α) (h : items ≠ []) :
    ∃ v s' g', s.choose g key items = .ok (v, s', g') := by
  unfold Selector.choose
  rw [dif_neg (length_ne_zero_of_ne_nil h)]
  by_cases hm : s.mode = .random
  · rw [if_pos hm]; exact ⟨_, _, _, rfl⟩
  · rw [if_neg hm]; exact ⟨_, _, _, rfl⟩

theorem choose_linear_eq {α : Type} (s : Selector) (g : RandGen) (key : Nat)
    (items : List α) (h : items ≠ []) (hm : s.mode = .linear) :
    s.choose g key items =
      .ok (items.get ⟨s.idx key % items.length,
            Nat.mod_lt _ (Nat.pos_of_ne_zero (length_ne_zero_of_ne_nil h))⟩,
        s.bump key items.length, g) := by
  unfold Selector.choose
  rw [dif_neg (length_ne_zero_of_ne_nil h), if_neg (by rw [hm]; intro hc; cases hc)]

theorem chooseN_zero {α : Type} (key : Nat) (items : List α) (s : Selector) (g : RandGen) :
    chooseN key items 0 s g = ([], s, g) := rfl

theorem chooseN_succ_of_ok {α : Type} {key : Nat} {items : List α} {n : Nat}
    {s s' : Selector} {g g' : RandGen} {v : α}
    (hok : s.choose g key items = .ok (v, s', g')) :
    chooseN key items (n + 1) s g =
      (v :: (chooseN key items n s' g').1, (chooseN key items n s' g').2) := by
  rw [chooseN, hok]

/-- In linear mode, `chooseN` never touches the generator and never touches
cursors of other keys. -/
theorem chooseN_linear_state {α : Type} (key : Nat) (items : List α) (h : items ≠ []) :
    ∀ (n : Nat) (s : Selector) (g : RandGen), s.mode = .linear →
      (chooseN key items n s g).2.1.mode = .linear ∧
      (chooseN key items n s g).2.2 = g ∧
      (∀ k, k ≠ key → (chooseN key items n s g).2.1.idx k = s.idx k) := by
  intro n
  induction n with
  | zero => intro s g hm; exact ⟨hm, rfl, fun _ _ => rfl⟩
  | succ n ih =>
    intro s g hm
    rw [chooseN_succ_of_ok (choose_linear_eq s g key items h hm)]
    obtain ⟨h1, h2, h3⟩ := ih (s.bump key items.length) g (by simpa using hm)
    refine ⟨h1, h2, fun k hk => ?_⟩
    rw [h3 k hk, Selector.bump_idx_other s items.length hk]

/-- In linear mode, a run of `d` calls starting at cursor `s.idx key` with
`s.idx key + d = items.length` returns exactly `items.drop (s.idx key)`, and
(when `d > 0`) leaves the cursor for `key` back at `0`. -/
theorem chooseN_linear_drop {α : Type} (key : Nat) (items : List α) (h : items ≠ []) :
    ∀ (d : Nat) (s : Selector) (g : RandGen), s.mode = .linear →
      s.idx key + d = items.length →
      (chooseN key items d s g).1 = items.drop (s.idx key) ∧
      (0 < d → (chooseN key items d s g).2.1.idx key = 0) := by
  intro d
  induction d with
  | zero =>
    intro s g _ hlen
    refine ⟨?_, fun hd => absurd hd (by omega)⟩
    rw [chooseN_zero]
    rw [Nat.add_zero] at hlen
    rw [hlen, List.drop_length]
  | succ d ih =>
    intro s g hm hlen
    have hipos : s.idx key < items.length := by omega
    have hmod : s.idx key % items.length = s.idx key := Nat.mod_eq_of_lt hipos
    rw [chooseN_succ_of_ok (choose_linear_eq s g key items h hm)]
    have hdrop : items.drop (s.idx key) =
        items.get ⟨s.idx key, hipos⟩ :: items.drop (s.idx key + 1) := by
      rw [List.drop_eq_getElem_cons hipos]; simp
    by_cases hwrap : s.idx key + 1 = items.length
    · -- final element of the cycle: the cursor wraps to 0
      have hd0 : d = 0 := by omega
      subst hd0
      have hidx : (s.bump key items.length).idx key = 0 := by
        rw [Selector.bump_idx_self, hwrap, Nat.mod_self]
      refine ⟨?_, fun _ => ?_⟩
      · rw [chooseN_zero, hdrop, hwrap, List.drop_length]
        simp only [List.get_eq_getElem, hmod]
      · rw [chooseN_zero]
        exact hidx
    · -- the cursor advances to s.idx key + 1 < items.length
      have hi1 : s.idx key + 1 < items.length := by omega
      have hidx : (s.bump key items.length).idx key = s.idx key + 1 := by
        rw [Selector.bump_idx_self, Nat.mod_eq_of_lt hi1]
      obtain ⟨ihdrop, ihzero⟩ := ih (s.bump key items.length) g (by simpa using hm)
        (by rw [hidx]; omega)
      refine ⟨?_, fun _ => ?_⟩
      · rw [ihdrop, hidx, hdrop]
        simp only [List.get_eq_getElem, hmod]
      · exact ihzero (by omega)

/-- `chooseN` splits across `+` when the item list is non-empty. -/
theorem chooseN_add {α : Type} (key : Nat) (items : List α) (h : items ≠ []) :
    ∀ (m n : Nat) (s : Selector) (g : RandGen),
      chooseN key items (m + n) s g =
        ((chooseN key items m s g).1 ++
           (chooseN key items n (chooseN key items m s g).2.1 (chooseN key items m s g).2.2).1,
         (chooseN key items n (chooseN key items m s g).2.1 (chooseN key items m s g).2.2).2) := by
  intro m
  induction m with
  | zero => intro n s g; simp [chooseN_zero]
  | succ m ih =>
    intro n s g
    obtain ⟨v, s', g', hok⟩ := choose_ok_of_ne_nil s g key items h
    have hadd : m + 1 + n = (m + n) + 1 := by omega
    rw [hadd, chooseN_succ_of_ok hok, chooseN_succ_of_ok hok]
    rw [ih n s' g']
    simp

theorem get_zero_eq_head {α : Type} (items : List α) (h : items ≠ []) (hp : 0 < items.length) :
    items.get ⟨0, hp⟩ = items.head h := by
  cases items with
  | nil => exact absurd rfl h
  | cons a l => rfl

/-!  ## Claim C2  -/

/-- **C2**: the spec says that when no entry of the attachment-count
distribution survives the cap filter (e.g. `max_cap = 0`), `weighted_choice`
returns 1.  The code instead raises: `items, weights = zip(*[])` aborts with
`ValueError: not enough values to unpack` before the `total <= 0` guard is
reached.  This theorem evaluates the embedded code at the failing input
(for every generator state). -/
theorem claim_C2_code_eval (g : RandGen) :
    weighted_choice g ATTACH_COUNT_DIST 0 =
      .error "ValueError: not enough values to unpack" := rfl

/-!  ## Claim C3  -/

/-- **C3**: in linear mode with a non-empty pool of size K and a slot key
whose cursor starts at 0, K consecutive `choose` calls return the K items
exactly once each in list order; the (K+1)-th call returns the first item
again; cursors of other keys are untouched (and the generator is untouched). -/
theorem claim_C3 {α : Type} (s : Selector) (g : RandGen) (key : Nat) (items : List α)
    (h : items ≠ []) (hm : s.mode = .linear) (h0 : s.idx key = 0) :
    (chooseN key items items.length s g).1 = items ∧
    (chooseN key items (items.length + 1) s g).1 = items ++ [items.head h] ∧
    (∀ n k, k ≠ key → (chooseN key items n s g).2.1.idx k = s.idx k) ∧
    (∀ n, (chooseN key items n s g).2.2 = g) := by
  have hpos : 0 < items.length := List.length_pos.mpr h
  have hdrop := chooseN_linear_drop key items h items.length s g hm (by rw [h0]; omega)
  have hfull : (chooseN key items items.length s g).1 = items := by
    rw [hdrop.1, h0, List.drop_zero]
  have hstate := chooseN_linear_state key items h items.length s g hm
  refine ⟨hfull, ?_, ?_, ?_⟩
  · -- the (K+1)-th call returns the first item again
    rw [chooseN_add key items h items.length 1 s g]
    have hcur : (chooseN key items items.length s g).2.1.idx key = 0 := hdrop.2 hpos
    have hmode : (chooseN key items items.length s g).2.1.mode = .linear := hstate.1
    simp only
    rw [chooseN_succ_of_ok
        (choose_linear_eq (chooseN key items items.length s g).2.1
          (chooseN key items items.length s g).2.2 key items h hmode),
      chooseN_zero, hfull]
    congr 1
    simp only [hcur, Nat.zero_mod]
    rw [get_zero_eq_head items h hpos]
  · intro n k hk
    exact (chooseN_linear_state key items h n s g hm).2.2 k hk
  · intro n
    exact (chooseN_linear_state key items h n s g hm).2.1

/-- Witness for C3 at a concrete pool of size 3, linear mode, fresh cursor. -/
theorem claim_C3_witness :
    (chooseN 1 ["a", "b", "c"] 3 (Selector.init .linear) ⟨fun _ => 0, 0⟩).1 =
      ["a", "b", "c"] ∧
    (chooseN 1 ["a", "b", "c"] 4 (Selector.init .linear) ⟨fun _ => 0, 0⟩).1 =
      ["a", "b", "c", "a"] := by
  have h : (["a", "b", "c"] : List String) ≠ [] := by simp
  have hc := claim_C3 (Selector.init .linear) ⟨fun _ => 0, 0⟩ 1 ["a", "b", "c"] h rfl rfl
  exact ⟨hc.1, hc.2.1⟩

/-!  ## Claim C8  -/

/-- **C8**: `Selector.choose` fails with the empty-pool error exactly when the
supplied item list is empty, and succeeds on every non-empty list in both
random and linear mode (any selector state, any generator). -/
theorem claim_C8 {α : Type} (s : Selector) (g : RandGen) (key : Nat) (items : List α) :
    (s.choose g key items = .error "Selection list is empty." ↔ items = []) ∧
    ((∃ v s' g', s.choose g key items = .ok (v, s', g')) ↔ items ≠ []) := by
  by_cases hnil : items = []
  · subst hnil
    constructor
    · simp [Selector.choose]
    · simp [Selector.choose]
  · obtain ⟨v, s', g', hok⟩ := choose_ok_of_ne_nil s g key items hnil
    rw [hok]
    constructor
    · constructor
      · intro hc; cases hc
      · intro hc; exact absurd hc hnil
    · constructor
      · intro _; exact hnil
      · intro _; exact ⟨v, s', g', rfl⟩

/-!  ## Date utilities (cli.py lines 297-344)

Timezone-aware UTC datetimes are embedded as epoch seconds (`Int`); the
`.date()` of a timestamp is its floor day number `t / 86400` (Int `/` is
Euclidean division, which is floor division for the positive divisor), and
`datetime(day.year, day.month, day.day, hour, minute, second, utc)` is
`day * 86400 + minute_in_day * 60 + second`. -/

/-- Models `random_date_in_range` (cli.py lines 297-304).  `random.uniform(0, d)`
is `d * random()`; the sub-second part of the offset is truncated (the
embedding works at second resolution). -/
def random_date_in_range (g : RandGen) (start endT : Int) :
    Except String (Int × RandGen) :=
  if endT - start < 0 then .error "Start must be <= end"
  else
    let u := randFloat g
    .ok (start + ⌊u.1 * ((endT : ℚ) - (start : ℚ))⌋, u.2)

/-- Models `random_date_weighted` (cli.py lines 306-344): uniform calendar day,
biased minute-of-day (business window vs. its complement), uniform second,
then clamping into `[start, endT]`. -/
def random_date_weighted (g : RandGen) (start endT : Int)
    (business_start_min business_end_min business_bias : Nat) :
    Except String (Int × RandGen) :=
  if start / 86400 > endT / 86400 then .error "Start date must be <= end date"
  else
    let day_span := endT / 86400 - start / 86400
    let d1 := randint g 0 day_span
    let day := start / 86400 + d1.1
    let d2 := randint d1.2 1 100
    let d3 :=
      if d2.1 ≤ (business_bias : Int) ∧ business_start_min < business_end_min then
        randint d2.2 (business_start_min : Int) ((business_end_min : Int) - 1)
      else
        let off_all := List.range business_start_min ++
          List.range' business_end_min (24 * 60 - business_end_min)
        if h : off_all = [] then
          randint d2.2 (business_start_min : Int) ((business_end_min : Int) - 1)
        else
          let c := choiceNE d2.2 off_all h
          ((c.1 : Int), c.2)
    let d4 := randint d3.2 0 59
    let dt := day * 86400 + d3.1 * 60 + d4.1
    let dtc := if dt < start then start else if dt > endT then endT else dt
    .ok (dtc, d4.2)

/-!  ## Lemmas about the random primitives  -/

theorem randint_bounds (g : RandGen) (a b : Int) (h : a ≤ b) :
    a ≤ (randint g a b).1 ∧ (randint g a b).1 ≤ b := by
  have hpos : (0 : Int) < b - a + 1 := by omega
  have h1 : 0 ≤ Int.ofNat (g.stream g.pos) % (b - a + 1) :=
    Int.emod_nonneg _ (by omega)
  have h2 : Int.ofNat (g.stream g.pos) % (b - a + 1) < b - a + 1 :=
    Int.emod_lt_of_pos _ hpos
  constructor
  · show a ≤ a + Int.ofNat (g.stream g.pos) % (b - a + 1)
    omega
  · show a + Int.ofNat (g.stream g.pos) % (b - a + 1) ≤ b
    omega

/-!  ## Claim C7  -/

/-- **C7** (amended): in weighted mode with business bias 100 and window
09:00-17:00 (minutes 540-1020), every sampled timestamp lies in `[start, endT]`
and its minute-of-day lies in `[540, 1020)` — provided `start ≤ endT`, `start`
sits at or before 09:00:00 of its day and `endT` at or after 16:59:59 of its
day.  (Without the two boundary provisos the clamp of cli.py lines 340-343 can
move the result outside the business window, see the counterexample.) -/
theorem claim_C7_amended (g : RandGen) (start endT : Int)
    (hle : start ≤ endT)
    (hs : start % 86400 ≤ 32400)
    (he : 61199 ≤ endT % 86400) :
    ∃ t g', random_date_weighted g start endT 540 1020 100 = .ok (t, g') ∧
      start ≤ t ∧ t ≤ endT ∧
      540 ≤ (t % 86400) / 60 ∧ (t % 86400) / 60 < 1020 := by
  have hday : ¬ start / 86400 > endT / 86400 :=
    not_lt.mpr (Int.ediv_le_ediv (by norm_num) hle)
  unfold random_date_weighted
  rw [if_neg hday]
  dsimp only
  have hspan : (0 : Int) ≤ endT / 86400 - start / 86400 := by omega
  have h1 := randint_bounds g 0 (endT / 86400 - start / 86400) hspan
  have h2 := randint_bounds (randint g 0 (endT / 86400 - start / 86400)).2 1 100 (by norm_num)
  have hbias : (randint (randint g 0 (endT / 86400 - start / 86400)).2 1 100).1 ≤
      ((100 : Nat) : Int) ∧ (540 : Nat) < (1020 : Nat) :=
    ⟨le_trans h2.2 (by norm_num), by norm_num⟩
  rw [if_pos hbias]
  have h3 := randint_bounds (randint (randint g 0 (endT / 86400 - start / 86400)).2 1 100).2
    ((540 : Nat) : Int) (((1020 : Nat) : Int) - 1) (by norm_num)
  have h4 := randint_bounds (randint (randint (randint g 0
      (endT / 86400 - start / 86400)).2 1 100).2
    ((540 : Nat) : Int) (((1020 : Nat) : Int) - 1)).2 0 59 (by norm_num)
  set o := (randint g 0 (endT / 86400 - start / 86400)).1 with ho
  set m := (randint (randint g 0 (endT / 86400 - start / 86400)).2 1 100).2 with hm
  set mi := (randint m ((540 : Nat) : Int) (((1020 : Nat) : Int) - 1)).1 with hmi
  set se := (randint (randint m ((540 : Nat) : Int) (((1020 : Nat) : Int) - 1)).2 0 59).1
    with hse
  have hmi' : (540 : Int) ≤ mi ∧ mi ≤ 1019 := by
    constructor
    · have := h3.1; simpa using this
    · have := h3.2; simpa using this
  have hdt1 : ¬ (start / 86400 + o) * 86400 + mi * 60 + se < start := by
    have hst := Int.ediv_add_emod start 86400
    omega
  have hdt2 : ¬ (start / 86400 + o) * 86400 + mi * 60 + se > endT := by
    have hst := Int.ediv_add_emod start 86400
    have hen := Int.ediv_add_emod endT 86400
    omega
  rw [if_neg hdt1, if_neg hdt2]
  refine ⟨_, _, rfl, by omega, by omega, ?_, ?_⟩
  · have hst := Int.ediv_add_emod start 86400
    omega
  · have hst := Int.ediv_add_emod start 86400
    omega

/-- **C7** (counterexample to the claim as stated): with `start = endT` at
18:00:00 of day 0 (start ≤ endT, bias 100, window 540-1020), the sampler
clamps the candidate up to `start`, whose minute-of-day 1080 is outside the
business window. -/
theorem claim_C7_counterexample :
    (random_date_weighted ⟨fun _ => 0, 0⟩ 64800 64800 540 1020 100).map Prod.fst =
      .ok 64800 ∧
    ¬(540 ≤ ((64800 : Int) % 86400) / 60 ∧ ((64800 : Int) % 86400) / 60 < 1020) := by
  constructor
  · rfl
  · decide

/-- Witness for the amended C7 on the concrete range `[0, 86399]`. -/
theorem claim_C7_witness :
    ∃ t g', random_date_weighted ⟨fun _ => 0, 0⟩ 0 86399 540 1020 100 = .ok (t, g') ∧
      0 ≤ t ∧ t ≤ 86399 ∧ 540 ≤ (t % 86400) / 60 ∧ (t % 86400) / 60 < 1020 :=
  claim_C7_amended ⟨fun _ => 0, 0⟩ 0 86399 (by norm_num) (by decide) (by decide)

/-!  ## Relay chain simulator (cli.py lines 349-381)  -/

/-- Models `parse_domain_from_email` (cli.py lines 349-351):
`addr.split("@", 1)` has two parts exactly when `@` occurs in `addr`, the
second part being the suffix after the first `@`; otherwise `"localhost"`. -/
def parse_domain_from_email (addr : String) : String :=
  let cs := addr.toList
  if '@' ∈ cs then String.mk ((cs.dropWhile (· ≠ '@')).drop 1) else "localhost"

def MONTH_NAMES : List String :=
  ["Jan", "Feb", "Mar", "Apr", "May", "Jun", "Jul", "Aug", "Sep", "Oct", "Nov", "Dec"]

def DAY_NAMES : List String := ["Mon", "Tue", "Wed", "Thu", "Fri", "Sat", "Sun"]

def pad2 (n : Nat) : String := if n < 10 then "0" ++ toString n else toString n

/-- Python's `f"{n:08x}"`: lowercase hex, zero-padded to 8 digits. -/
def toHex8 (n : Nat) : String :=
  let ds := Nat.toDigits 16 n
  String.mk (List.replicate (8 - ds.length) '0' ++ ds)

/-- Gregorian civil date (year, month, day) from a day number with epoch
1970-01-01 (standard days-from-civil inverse). -/
def civilFromDays (z : Int) : Int × Nat × Nat :=
  let a := z + 719468
  let era := Int.fdiv a 146097
  let doe := (a - era * 146097).toNat
  let yoe := (doe - doe / 1460 + doe / 36524 - doe / 146096) / 365
  let doy := doe - (365 * yoe + yoe / 4 - yoe / 100)
  let mp := (5 * doy + 2) / 153
  let d := doy - (153 * mp + 2) / 5 + 1
  let m := if mp < 10 then mp + 3 else mp - 9
  let y := (yoe : Int) + era * 400 + (if m ≤ 2 then 1 else 0)
  (y, m, d)

/-- Models `email.utils.formatdate(ts, localtime=False)`: the RFC 5322 date
string of a UTC epoch-second timestamp with the fixed `-0000` zone. -/
def formatdate (t : Int) : String :=
  let days := t / 86400
  let sod := (t % 86400).toNat
  let c := civilFromDays days
  let wd := ((days + 3) % 7).toNat
  DAY_NAMES.getD wd "Mon" ++ ", " ++ pad2 c.2.2 ++ " " ++
    MONTH_NAMES.getD (c.2.1 - 1) "Jan" ++ " " ++ toString c.1 ++ " " ++
    pad2 (sod / 3600) ++ ":" ++ pad2 (sod / 60 % 60) ++ ":" ++ pad2 (sod % 60) ++ " -0000"

/-- One rendered trace line (cli.py line 378):
`f"from {src} by {dst} with ESMTP id {pseudo_id}; {date_str}"`. -/
def renderHop (src dst : String) (pseudo_id : Nat) (date_str : String) : String :=
  "from " ++ src ++ " by " ++ dst ++ " with ESMTP id " ++ toHex8 pseudo_id ++ "; " ++ date_str

/-- The hop-timestamp loop of `gen_received_headers` (cli.py lines 367-371):
starting from `oldest`, each hop adds `random.randint(30, 90)` seconds. -/
def hopTimesFrom : Int → Nat → RandGen → List Int × RandGen
  | _, 0, g => ([], g)
  | t, n + 1, g =>
    let d := randint g 30 90
    ((t + d.1) :: (hopTimesFrom (t + d.1) n d.2).1, (hopTimesFrom (t + d.1) n d.2).2)

/-- The chain draw of cli.py line 362:
`[random.choice(relay_hosts) for _ in range(hops + 1)]`. -/
def chainHosts (hosts : List String) (h : hosts ≠ []) : Nat → RandGen → List String × RandGen
  | 0, g => ([], g)
  | n + 1, g =>
    let c := choiceNE g hosts h
    (c.1 :: (chainHosts hosts h n c.2).1, (chainHosts hosts h n c.2).2)

/-- The rendering loop of cli.py lines 373-379 over
(source host, destination host, hop time) triples; each line draws an
8-hex-digit pseudo id via `random.randrange(16 ** 8)`. -/
def renderHops : List ((String × String) × Int) → RandGen → List String × RandGen
  | [], g => ([], g)
  | sdt :: rest, g =>
    let idd := randrange g (16 ^ 8)
    (renderHop sdt.1.1 sdt.1.2 idd.1 (formatdate sdt.2) :: (renderHops rest idd.2).1,
     (renderHops rest idd.2).2)

/-- Models `gen_received_headers` (cli.py lines 353-381): rendered `Received`
lines plus the underlying hop timestamps (exposed for specification; rendered
line `i` carries `hop_times[i]`).  `now` is the `datetime.now(timezone.utc)`
fallback used when `base_date` is absent. -/
def gen_received_headers (g : RandGen) (relay_hosts : List String)
    (hops_min hops_max : Int) (base_date : Option Int) (now : Int) :
    List String × List Int × RandGen :=
  if h : relay_hosts = [] then ([], [], g)
  else
    let nh := randint g hops_min hops_max
    let hops := nh.1.toNat
    let ch := chainHosts relay_hosts h (hops + 1) nh.2
    let anchor := base_date.getD now
    let od := randint ch.2 5 15
    let oldest := anchor - od.1 * 60
    let ht := hopTimesFrom oldest hops od.2
    let rendered := renderHops ((ch.1.zip (ch.1.drop 1)).zip ht.1) ht.2
    (rendered.1, ht.1, rendered.2)

/-!  ## Lemmas about the relay chain  -/

theorem hopTimesFrom_length (n : Nat) :
    ∀ (t : Int) (g : RandGen), (hopTimesFrom t n g).1.length = n := by
  induction n with
  | zero => intro t g; rfl
  | succ n ih =>
    intro t g
    unfold hopTimesFrom
    simp [ih]

theorem hopTimesFrom_chain (n : Nat) :
    ∀ (t : Int) (g : RandGen),
      List.Chain' (fun a b => a < b ∧ a + 30 ≤ b ∧ b ≤ a + 90)
        (t :: (hopTimesFrom t n g).1) := by
  induction n with
  | zero => intro t g; simp [hopTimesFrom]
  | succ n ih =>
    intro t g
    have hb := randint_bounds g 30 90 (by norm_num)
    unfold hopTimesFrom
    rw [List.chain'_cons]
    exact ⟨⟨by omega, by omega, by omega⟩, ih _ _⟩

theorem hopTimesFrom_mem_bounds (n : Nat) :
    ∀ (t : Int) (g : RandGen) (x : Int), x ∈ (hopTimesFrom t n g).1 →
      t + 30 ≤ x ∧ x ≤ t + 90 * n := by
  induction n with
  | zero => intro t g x hx; simp [hopTimesFrom] at hx
  | succ n ih =>
    intro t g x hx
    have hb := randint_bounds g 30 90 (by norm_num)
    unfold hopTimesFrom at hx
    rcases List.mem_cons.mp hx with hx | hx
    · subst hx
      constructor <;> omega
    · have := ih _ _ x hx
      constructor <;> omega

theorem hopTimesFrom_head (n : Nat) (hn : 0 < n) (t : Int) (g : RandGen) :
    ∃ d, 30 ≤ d ∧ d ≤ 90 ∧ (hopTimesFrom t n g).1.head? = some (t + d) := by
  obtain ⟨m, rfl⟩ : ∃ m, n = m + 1 := ⟨n - 1, by omega⟩
  have hb := randint_bounds g 30 90 (by norm_num)
  exact ⟨(randint g 30 90).1, hb.1, hb.2, by unfold hopTimesFrom; rfl⟩

theorem chainHosts_length (hosts : List String) (h : hosts ≠ []) (n : Nat) :
    ∀ (g : RandGen), (chainHosts hosts h n g).1.length = n := by
  induction n with
  | zero => intro g; rfl
  | succ n ih =>
    intro g
    unfold chainHosts
    simp [ih]

theorem renderHops_length (l : List ((String × String) × Int)) :
    ∀ (g : RandGen), (renderHops l g).1.length = l.length := by
  induction l with
  | nil => intro g; rfl
  | cons x rest ih =>
    intro g
    unfold renderHops
    simp [ih]

theorem renderHops_spec (l : List ((String × String) × Int)) :
    ∀ (g : RandGen), ∃ ids : List Nat, ids.length = l.length ∧
      (renderHops l g).1 = (l.zip ids).map
        (fun p => renderHop p.1.1.1 p.1.1.2 p.2 (formatdate p.1.2)) := by
  induction l with
  | nil => intro g; exact ⟨[], rfl, rfl⟩
  | cons x rest ih =>
    intro g
    obtain ⟨ids, hlen, heq⟩ := ih (randrange g (16 ^ 8)).2
    refine ⟨(randrange g (16 ^ 8)).1 :: ids, by simp [hlen], ?_⟩
    show renderHop x.1.1 x.1.2 (randrange g (16 ^ 8)).1 (formatdate x.2) ::
        (renderHops rest (randrange g (16 ^ 8)).2).1 = _
    rw [heq]
    rfl

/-- Central specification of `gen_received_headers` with a supplied base date:
hop count in `[1,3]`, offset in `[5,15]` minutes, and the header and hop-time
lists expressed through the component generators. -/
theorem gen_received_headers_spec (g : RandGen) (hosts : List String) (anchor now : Int)
    (h : hosts ≠ []) :
    ∃ (hops : Nat) (off : Int) (g1 g2 : RandGen),
      1 ≤ hops ∧ hops ≤ 3 ∧ 5 ≤ off ∧ off ≤ 15 ∧
      (gen_received_headers g hosts 1 3 (some anchor) now).2.1 =
        (hopTimesFrom (anchor - off * 60) hops g1).1 ∧
      (gen_received_headers g hosts 1 3 (some anchor) now).1 =
        (renderHops (((chainHosts hosts h (hops + 1) g2).1.zip
            ((chainHosts hosts h (hops + 1) g2).1.drop 1)).zip
          (hopTimesFrom (anchor - off * 60) hops g1).1)
          (hopTimesFrom (anchor - off * 60) hops g1).2).1 := by
  have hb1 := randint_bounds g 1 3 (by norm_num)
  have hb2 := randint_bounds
    (chainHosts hosts h ((randint g 1 3).1.toNat + 1) (randint g 1 3).2).2 5 15 (by norm_num)
  refine ⟨(randint g 1 3).1.toNat,
    (randint (chainHosts hosts h ((randint g 1 3).1.toNat + 1) (randint g 1 3).2).2 5 15).1,
    (randint (chainHosts hosts h ((randint g 1 3).1.toNat + 1) (randint g 1 3).2).2 5 15).2,
    (randint g 1 3).2, by omega, by omega, hb2.1, hb2.2, ?_, ?_⟩
  · unfold gen_received_headers
    rw [dif_neg h]
    rfl
  · unfold gen_received_headers
    rw [dif_neg h]
    rfl

/-!  ## Claim C4  -/

/-- **C4**: for every non-empty relay-host list and every send time, the
generated chain has between 1 and 3 hops, consecutive hop timestamps increase
strictly by 30 to 90 seconds, every hop timestamp (in particular the final
one) is strictly before the send time, and the rendered lines are in hop
order (line `i` is rendered from hop timestamp `i`, hence oldest hop first). -/
theorem claim_C4 (g : RandGen) (hosts : List String) (anchor now : Int) (h : hosts ≠ []) :
    1 ≤ (gen_received_headers g hosts 1 3 (some anchor) now).2.1.length ∧
    (gen_received_headers g hosts 1 3 (some anchor) now).2.1.length ≤ 3 ∧
    List.Chain' (fun a b => a < b ∧ a + 30 ≤ b ∧ b ≤ a + 90)
      (gen_received_headers g hosts 1 3 (some anchor) now).2.1 ∧
    (∀ x ∈ (gen_received_headers g hosts 1 3 (some anchor) now).2.1, x < anchor) ∧
    (gen_received_headers g hosts 1 3 (some anchor) now).1.length =
      (gen_received_headers g hosts 1 3 (some anchor) now).2.1.length ∧
    (∀ i : Nat, i < (gen_received_headers g hosts 1 3 (some anchor) now).2.1.length →
      ∃ src dst pid t,
        (gen_received_headers g hosts 1 3 (some anchor) now).2.1.get? i = some t ∧
        (gen_received_headers g hosts 1 3 (some anchor) now).1.get? i =
          some (renderHop src dst pid (formatdate t))) := by
  obtain ⟨hops, off, g1, g2, hh1, hh3, ho5, ho15, hht, hhd⟩ :=
    gen_received_headers_spec g hosts anchor now h
  have hlen : (gen_received_headers g hosts 1 3 (some anchor) now).2.1.length = hops := by
    rw [hht, hopTimesFrom_length]
  obtain ⟨ids, hidlen, hmap⟩ :=
    renderHops_spec (((chainHosts hosts h (hops + 1) g2).1.zip
        ((chainHosts hosts h (hops + 1) g2).1.drop 1)).zip
      (hopTimesFrom (anchor - off * 60) hops g1).1)
      (hopTimesFrom (anchor - off * 60) hops g1).2
  have hziplen : (((chainHosts hosts h (hops + 1) g2).1.zip
        ((chainHosts hosts h (hops + 1) g2).1.drop 1)).zip
      (hopTimesFrom (anchor - off * 60) hops g1).1).length = hops := by
    simp [List.length_zip, chainHosts_length, hopTimesFrom_length]
  have hdlen : (gen_received_headers g hosts 1 3 (some anchor) now).1.length = hops := by
    rw [hhd, renderHops_length, hziplen]
  refine ⟨by omega, by omega, ?_, ?_, by omega, ?_⟩
  · rw [hht]
    exact (hopTimesFrom_chain hops (anchor - off * 60) g1).tail
  · intro x hx
    rw [hht] at hx
    have hxb := hopTimesFrom_mem_bounds hops (anchor - off * 60) g1 x hx
    omega
  · intro i hi
    have hilt : i < hops := by omega
    have hbc : i < ((chainHosts hosts h (hops + 1) g2).1.zip
        ((chainHosts hosts h (hops + 1) g2).1.drop 1)).length := by
      simp only [List.length_zip, List.length_drop, chainHosts_length]
      omega
    have hbt : i < (hopTimesFrom (anchor - off * 60) hops g1).1.length := by
      rw [hopTimesFrom_length]; omega
    refine ⟨(((chainHosts hosts h (hops + 1) g2).1.zip
        ((chainHosts hosts h (hops + 1) g2).1.drop 1)).get ⟨i, hbc⟩).1,
      (((chainHosts hosts h (hops + 1) g2).1.zip
        ((chainHosts hosts h (hops + 1) g2).1.drop 1)).get ⟨i, hbc⟩).2,
      ids.get ⟨i, by omega⟩,
      (hopTimesFrom (anchor - off * 60) hops g1).1.get ⟨i, hbt⟩, ?_, ?_⟩
    · rw [hht]
      exact List.get?_eq_get hbt
    · have hrw : (gen_received_headers g hosts 1 3 (some anchor) now).1.get? i =
          (List.map (fun p => renderHop p.1.1.1 p.1.1.2 p.2 (formatdate p.1.2))
            ((((chainHosts hosts h (hops + 1) g2).1.zip
                ((chainHosts hosts h (hops + 1) g2).1.drop 1)).zip
              (hopTimesFrom (anchor - off * 60) hops g1).1).zip ids)).get? i := by
        rw [hhd, hmap]
      rw [hrw, List.get?_eq_get
        (by simp only [List.length_map, List.length_zip, hidlen, hziplen]; omega)]
      congr 1
      simp only [List.get_eq_getElem, List.getElem_map, List.getElem_zip]

/-- Witness for C4 at a one-host pool, anchor 0, the all-zero stream. -/
theorem claim_C4_witness :
    (["relay.example"] : List String) ≠ [] ∧
    (1 ≤ (gen_received_headers ⟨fun _ => 0, 0⟩ ["relay.example"] 1 3 (some 0) 0).2.1.length ∧
     (gen_received_headers ⟨fun _ => 0, 0⟩ ["relay.example"] 1 3 (some 0) 0).2.1.length ≤ 3 ∧
     List.Chain' (fun a b => a < b ∧ a + 30 ≤ b ∧ b ≤ a + 90)
       (gen_received_headers ⟨fun _ => 0, 0⟩ ["relay.example"] 1 3 (some 0) 0).2.1 ∧
     (∀ x ∈ (gen_received_headers ⟨fun _ => 0, 0⟩ ["relay.example"] 1 3 (some 0) 0).2.1,
       x < 0) ∧
     (gen_received_headers ⟨fun _ => 0, 0⟩ ["relay.example"] 1 3 (some 0) 0).1.length =
       (gen_received_headers ⟨fun _ => 0, 0⟩ ["relay.example"] 1 3 (some 0) 0).2.1.length ∧
     (∀ i : Nat, i < (gen_received_headers ⟨fun _ => 0, 0⟩ ["relay.example"] 1 3
         (some 0) 0).2.1.length →
       ∃ src dst pid t,
         (gen_received_headers ⟨fun _ => 0, 0⟩ ["relay.example"] 1 3
           (some 0) 0).2.1.get? i = some t ∧
         (gen_received_headers ⟨fun _ => 0, 0⟩ ["relay.example"] 1 3
           (some 0) 0).1.get? i = some (renderHop src dst pid (formatdate t)))) :=
  ⟨by simp, claim_C4 ⟨fun _ => 0, 0⟩ ["relay.example"] 0 0 (by simp)⟩

/-!  ## Claim C5  -/

/-- **C5** (counterexample to the claim as stated): with one relay host,
send time 0 and a stream drawing hop count 1, offset 5 minutes and first-hop
delta 90 seconds, the first hop timestamp is `-210`, so `T - firstHop = 210`
seconds, outside the claimed interval `[5 min, 15 min] = [300, 900]`. -/
theorem claim_C5_counterexample :
    (gen_received_headers ⟨fun n => if n = 4 then 60 else 0, 0⟩ ["relay.example"] 1 3
      (some 0) 0).2.1 = [-210] ∧
    ¬(300 ≤ (0 : Int) - (-210) ∧ (0 : Int) - (-210) ≤ 900) := by
  constructor
  · decide
  · decide

/-- **C5** (amended): the chain anchor (`oldest`) is the send time minus a
uniform 5-15 minute offset, but the first hop's timestamp is that anchor plus
a uniform 30-90 second delta; hence `T - firstHop` lies in `[210, 870]`
seconds (not `[300, 900]`). -/
theorem claim_C5_amended (g : RandGen) (hosts : List String) (anchor now : Int)
    (h : hosts ≠ []) :
    ∃ t0, (gen_received_headers g hosts 1 3 (some anchor) now).2.1.head? = some t0 ∧
      210 ≤ anchor - t0 ∧ anchor - t0 ≤ 870 := by
  obtain ⟨hops, off, g1, g2, hh1, hh3, ho5, ho15, hht, hhd⟩ :=
    gen_received_headers_spec g hosts anchor now h
  obtain ⟨d, hd30, hd90, hhead⟩ := hopTimesFrom_head hops (by omega) (anchor - off * 60) g1
  refine ⟨anchor - off * 60 + d, ?_, by omega, by omega⟩
  rw [hht, hhead]

/-- Witness for the amended C5 at a one-host pool, anchor 0, all-zero stream. -/
theorem claim_C5_witness :
    ∃ t0, (gen_received_headers ⟨fun _ => 0, 0⟩ ["relay.example"] 1 3
        (some 0) 0).2.1.head? = some t0 ∧
      210 ≤ (0 : Int) - t0 ∧ (0 : Int) - t0 ≤ 870 :=
  claim_C5_amended ⟨fun _ => 0, 0⟩ ["relay.example"] 0 0 (by simp)

/-!  ## String helpers (cli.py lines 255-261)  -/

/-- Python's `str.strip()` / `str.isspace()` whitespace class (CPython's
`Py_UNICODE_ISSPACE`, also the `\s` class of the `re` module on `str`):
ASCII `\t \n \v \f \r`, the separators U+001C-U+001F, the space, NEL
(U+0085), NBSP (U+00A0), Ogham space (U+1680), the fixed-width spaces
U+2000-U+200A, the line and paragraph separators (U+2028, U+2029), NNBSP
(U+202F), MMSP (U+205F) and the ideographic space (U+3000). -/
def isPySpace (c : Char) : Bool :=
  decide ((0x09 ≤ c.toNat ∧ c.toNat ≤ 0x0d) ∨
    (0x1c ≤ c.toNat ∧ c.toNat ≤ 0x1f) ∨
    c.toNat = 0x20 ∨ c.toNat = 0x85 ∨ c.toNat = 0xa0 ∨ c.toNat = 0x1680 ∨
    (0x2000 ≤ c.toNat ∧ c.toNat ≤ 0x200a) ∨
    c.toNat = 0x2028 ∨ c.toNat = 0x2029 ∨ c.toNat = 0x202f ∨
    c.toNat = 0x205f ∨ c.toNat = 0x3000)

/-- The character class `[\r\n]` of `sanitize_subject`. -/
def isNewlineChar (c : Char) : Bool := c == '\r' || c == '\n'

/-- `re.sub(p+, " ", s)` for a character class `p`: every maximal run of
`p`-characters is replaced by a single space. -/
def collapseRuns (p : Char → Bool) : List Char → List Char
  | [] => []
  | [c] => if p c then [' '] else [c]
  | c :: d :: rest =>
    if p c then
      if p d then collapseRuns p (d :: rest)
      else ' ' :: collapseRuns p (d :: rest)
    else c :: collapseRuns p (d :: rest)

/-- Python's `str.strip()`: drop leading and trailing whitespace. -/
def pyStrip (l : List Char) : List Char :=
  ((l.dropWhile isPySpace).reverse.dropWhile isPySpace).reverse

/-- Models `sanitize_subject` (cli.py lines 260-261):
`re.sub(r"[\r\n]+", " ", s).strip()`. -/
def sanitize_subject (s : String) : String :=
  String.mk (pyStrip (collapseRuns isNewlineChar s.toList))

/-- `re.sub(r"<[^>]+>", " ", text)` (cli.py line 256): each tag — a `<`, at
least one non-`>` character, then `>` — becomes one space; an unmatched `<`
is kept verbatim. -/
def stripTags : List Char → List Char
  | [] => []
  | c :: rest =>
    if c = '<' then
      let pre := rest.takeWhile (fun x => x ≠ '>')
      let post := rest.dropWhile (fun x => x ≠ '>')
      if pre = [] ∨ post = [] then c :: stripTags rest
      else ' ' :: stripTags (post.drop 1)
    else c :: stripTags rest
termination_by l => l.length
decreasing_by
  all_goals simp_wf
  have hle : (List.dropWhile (fun x => !decide (x = '>')) rest).length ≤ rest.length :=
    (List.dropWhile_sublist _).length_le
  omega

/-- Models `strip_html` (cli.py lines 255-258): tags to spaces, whitespace
runs collapsed, then stripped. -/
def strip_html (html_text : String) : String :=
  String.mk (pyStrip (collapseRuns isPySpace (stripTags html_text.toList)))

/-- The subject derivation of `build_email` (cli.py lines 419-424):
`sanitize_subject(subj_source[:subject_len]) or "No subject"`. -/
def deriveSubject (subj_source : String) (subject_len : Nat) : String :=
  let s := sanitize_subject (String.mk (subj_source.toList.take subject_len))
  if s = "" then "No subject" else s

/-!  ## Lemmas about the string helpers  -/

theorem collapseRuns_eq_self (p : Char → Bool) :
    ∀ (l : List Char), (∀ c ∈ l, p c = false) → collapseRuns p l = l := by
  intro l
  induction l with
  | nil => intro _; rfl
  | cons c rest ih =>
    intro hall
    cases rest with
    | nil =>
      have := hall c (by simp)
      simp [collapseRuns, this]
    | cons d rest2 =>
      have hc := hall c (by simp)
      unfold collapseRuns
      rw [if_neg (by simp [hc])]
      rw [ih (fun x hx => hall x (by simp [hx]))]

theorem mem_collapseRuns (p : Char → Bool) :
    ∀ (l : List Char) (c : Char), c ∈ collapseRuns p l →
      c = ' ' ∨ (c ∈ l ∧ p c = false) := by
  intro l
  induction l with
  | nil => intro c hc; simp [collapseRuns] at hc
  | cons a rest ih =>
    intro c hc
    cases rest with
    | nil =>
      by_cases hp : p a = true
      · simp [collapseRuns, hp] at hc
        exact Or.inl hc
      · simp [collapseRuns, hp] at hc
        exact Or.inr ⟨by simp [hc], by rw [hc]; simpa using hp⟩
    | cons d rest2 =>
      unfold collapseRuns at hc
      by_cases hp : p a = true
      · rw [if_pos hp] at hc
        by_cases hpd : p d = true
        · rw [if_pos hpd] at hc
          rcases ih c hc with h | h
          · exact Or.inl h
          · exact Or.inr ⟨by simp [h.1], h.2⟩
        · rw [if_neg hpd] at hc
          rcases List.mem_cons.mp hc with h | h
          · exact Or.inl h
          · rcases ih c h with h2 | h2
            · exact Or.inl h2
            · exact Or.inr ⟨by simp [h2.1], h2.2⟩
      · rw [if_neg hp] at hc
        rcases List.mem_cons.mp hc with h | h
        · subst h
          exact Or.inr ⟨by simp, by simpa using hp⟩
        · rcases ih c h with h2 | h2
          · exact Or.inl h2
          · exact Or.inr ⟨by simp [h2.1], h2.2⟩

theorem dropWhile_eq_self_of_head (p : Char → Bool) (l : List Char)
    (h : l.head?.all (fun c => !p c) = true) : l.dropWhile p = l := by
  cases l with
  | nil => rfl
  | cons c rest =>
    have : p c = false := by simpa using h
    rw [List.dropWhile_cons, if_neg (by simp [this])]

theorem pyStrip_eq_self (l : List Char)
    (h1 : l.head?.all (fun c => !isPySpace c) = true)
    (h2 : l.getLast?.all (fun c => !isPySpace c) = true) : pyStrip l = l := by
  unfold pyStrip
  rw [dropWhile_eq_self_of_head _ _ h1]
  rw [dropWhile_eq_self_of_head _ _ (by rwa [List.head?_reverse])]
  exact List.reverse_reverse l

theorem mem_pyStrip (l : List Char) (c : Char) (hc : c ∈ pyStrip l) : c ∈ l := by
  unfold pyStrip at hc
  rw [List.mem_reverse] at hc
  have := (List.dropWhile_sublist isPySpace
    (l := (l.dropWhile isPySpace).reverse)).mem hc
  rw [List.mem_reverse] at this
  exact (List.dropWhile_sublist isPySpace (l := l)).mem this

/-!  ## Claim C6  -/

set_option maxRecDepth 4000 in
/-- **C6** (counterexample to the claim as stated): a 200-character plain-text
body consisting solely of newlines, with `subjectLen = 50`, yields the
fallback subject `"No subject"` (length 10), not a 50-character subject: the
newline run collapses to one space, which the trim removes. -/
theorem claim_C6_counterexample :
    (String.mk (List.replicate 200 '\n')).length = 200 ∧
    deriveSubject (String.mk (List.replicate 200 '\n')) 50 = "No subject" ∧
    (deriveSubject (String.mk (List.replicate 200 '\n')) 50).length ≠ 50 := by
  refine ⟨by decide, by decide, by decide⟩

/-- **C6** (amended): for a 200-character plain-text body whose first 50
characters contain no CR/LF and whose first and last of those characters are
not whitespace, the derived subject is exactly those 50 characters (so
exactly 50 characters long); for EVERY body the derived subject contains no
newline characters; and an empty subject source yields the literal fallback
`"No subject"`. -/
theorem claim_C6_amended (body : List Char) (hlen : body.length = 200)
    (hnl : ∀ c ∈ body.take 50, c ≠ '\r' ∧ c ≠ '\n')
    (hhead : (body.take 50).head?.all (fun c => !isPySpace c) = true)
    (hlast : (body.take 50).getLast?.all (fun c => !isPySpace c) = true) :
    deriveSubject (String.mk body) 50 = String.mk (body.take 50) ∧
    (deriveSubject (String.mk body) 50).length = 50 ∧
    (∀ body' : String, ∀ c ∈ (deriveSubject body' 50).toList, c ≠ '\r' ∧ c ≠ '\n') ∧
    deriveSubject "" 50 = "No subject" := by
  have htke : (body.take 50).length = 50 := by
    rw [List.length_take]; omega
  have hcoll : collapseRuns isNewlineChar (body.take 50) = body.take 50 := by
    apply collapseRuns_eq_self
    intro c hc
    have := hnl c hc
    simp [isNewlineChar, this.1, this.2]
  have hsan : sanitize_subject (String.mk (body.take 50)) = String.mk (body.take 50) := by
    unfold sanitize_subject
    show String.mk (pyStrip (collapseRuns isNewlineChar (body.take 50))) = _
    rw [hcoll, pyStrip_eq_self _ hhead hlast]
  have hne : String.mk (body.take 50) ≠ "" := by
    intro hcon
    have : (body.take 50).length = 0 := by
      have := congrArg String.length hcon
      simpa using this
    omega
  have hmain : deriveSubject (String.mk body) 50 = String.mk (body.take 50) := by
    unfold deriveSubject
    show (if sanitize_subject (String.mk (body.take 50)) = "" then "No subject"
      else sanitize_subject (String.mk (body.take 50))) = String.mk (body.take 50)
    rw [hsan, if_neg hne]
  refine ⟨hmain, ?_, ?_, ?_⟩
  · rw [hmain]
    exact htke
  · intro body' c hc
    unfold deriveSubject at hc
    by_cases hz : sanitize_subject (String.mk (body'.toList.take 50)) = ""
    · rw [if_pos hz] at hc
      have hall : ∀ x ∈ ("No subject" : String).toList, x ≠ '\r' ∧ x ≠ '\n' := by decide
      exact hall c hc
    · rw [if_neg hz] at hc
      have hc2 : c ∈ pyStrip (collapseRuns isNewlineChar (body'.toList.take 50)) := hc
      have hc3 := mem_pyStrip _ _ hc2
      rcases mem_collapseRuns _ _ _ hc3 with h | h
      · subst h; exact ⟨by decide, by decide⟩
      · have := h.2
        simp [isNewlineChar] at this
        exact ⟨this.1, this.2⟩
  · show (if sanitize_subject (String.mk (("" : String).toList.take 50)) = "" then "No subject"
      else sanitize_subject (String.mk (("" : String).toList.take 50))) = "No subject"
    rw [if_pos (by decide)]

set_option maxRecDepth 4000 in
/-- Witness for the amended C6 at a 200-character body of letters. -/
theorem claim_C6_witness :
    deriveSubject (String.mk (List.replicate 200 'a')) 50 =
      String.mk ((List.replicate 200 'a').take 50) ∧
    (deriveSubject (String.mk (List.replicate 200 'a')) 50).length = 50 ∧
    (∀ body' : String, ∀ c ∈ (deriveSubject body' 50).toList, c ≠ '\r' ∧ c ≠ '\n') ∧
    deriveSubject "" 50 = "No subject" :=
  claim_C6_amended (List.replicate 200 'a') (by decide) (by decide) (by decide) (by decide)

/-!  ## Claim C10  -/

/-- **C10**: for every sender address without an `@` separator,
`parse_domain_from_email` returns the literal `"localhost"` (so the
Message-ID domain always exists and message assembly cannot fail there). -/
theorem claim_C10 (addr : String) (h : '@' ∉ addr.toList) :
    parse_domain_from_email addr = "localhost" := by
  unfold parse_domain_from_email
  exact if_neg h

/-- Witness for C10 at an address with no `@`. -/
theorem claim_C10_witness : parse_domain_from_email "malformed.sender" = "localhost" :=
  claim_C10 "malformed.sender" (by decide)

/-!  ## Message assembler (cli.py lines 383-441)  -/

/-- The process environment outside the seeded generator: the wall clock in
centiseconds (`int(time.time() * 100)` as read by `make_msgid`) and via
`timeC / 100` the epoch seconds of `datetime.now`, the process id, and the
host timezone offset in minutes (for `formatdate(localtime=True)`). -/
structure Env where
  timeC : Nat
  pid : Nat
  tzMin : Int

/-- Models `email.utils.make_msgid(domain=...)` (CPython): the string
`<timeval.pid.randbits@domain>` where `timeval = int(time.time()*100)`,
`pid = os.getpid()` and `randbits = random.getrandbits(64)` — only the last
component comes from the seeded generator. -/
def make_msgid (timeC pid randbits : Nat) (domain : String) : String :=
  "<" ++ toString timeC ++ "." ++ toString pid ++ "." ++ toString randbits ++
    "@" ++ domain ++ ">"

/-- Models `email.utils.formatdate(localtime=True)`: the current wall clock
rendered at the host's local offset with a signed zone suffix. -/
def formatdate_localtime (env : Env) : String :=
  let localT := (env.timeC : Int) / 100 + env.tzMin * 60
  let days := localT / 86400
  let sod := (localT % 86400).toNat
  let c := civilFromDays days
  let wd := ((days + 3) % 7).toNat
  DAY_NAMES.getD wd "Mon" ++ ", " ++ pad2 c.2.2 ++ " " ++
    MONTH_NAMES.getD (c.2.1 - 1) "Jan" ++ " " ++ toString c.1 ++ " " ++
    pad2 (sod / 3600) ++ ":" ++ pad2 (sod / 60 % 60) ++ ":" ++ pad2 (sod % 60) ++ " " ++
    (if env.tzMin < 0 then "-" else "+") ++
    pad2 (env.tzMin.natAbs / 60) ++ pad2 (env.tzMin.natAbs % 60)

/-- Models `guess_mime_type` (cli.py lines 383-388) over the stdlib
`mimetypes` table (restricted to common extensions), with the
`application/octet-stream` default. -/
def guess_mime_type (name : String) : String × String :=
  if name.endsWith ".txt" then ("text", "plain")
  else if name.endsWith ".html" || name.endsWith ".htm" then ("text", "html")
  else if name.endsWith ".pdf" then ("application", "pdf")
  else if name.endsWith ".png" then ("image", "png")
  else if name.endsWith ".jpg" || name.endsWith ".jpeg" then ("image", "jpeg")
  else ("application", "octet-stream")

/-- The `ComposedMessage`: the `EmailMessage` assembled by `build_email`,
with headers in insertion order, the body parts, and the attachments as
(maintype, subtype, filename, content). -/
structure ComposedMessage where
  received : List String
  fromAddr : String
  toAddr : String
  msgid : String
  date : String
  xMailer : String
  subject : String
  textPart : String
  htmlPart : Option String
  attachments : List (String × String × String × String)
  deriving DecidableEq

/-- Models `build_email` (cli.py lines 390-441).  Attachment pools carry file
contents, so `ap.read_bytes()` is total here (the `AttachmentReadError`
recovery path is not exercised).  Draw order matches the source: the relay
chain first, then `make_msgid`'s `getrandbits(64)`. -/
def build_email (env : Env) (g : RandGen) (from_addr to_addr : String) (is_html : Bool)
    (subject_len : Nat) (text_body : String) (html_body : Option String)
    (attach_paths : List (String × String)) (relay_hosts : List String)
    (msg_date : Option Int) : ComposedMessage × RandGen :=
  let rcv := gen_received_headers g relay_hosts 1 3 msg_date ((env.timeC : Int) / 100)
  let bits := getrandbits64 rcv.2.2
  let msgid := make_msgid env.timeC env.pid bits.1 (parse_domain_from_email from_addr)
  let date := match msg_date with
    | some d => formatdate d
    | none => formatdate_localtime env
  let subj_source := match is_html, html_body with
    | true, some hb => strip_html hb
    | _, _ => text_body
  let subject := deriveSubject subj_source subject_len
  let bodyParts : String × Option String :=
    match is_html, html_body with
    | true, some hb =>
      let fallback_text := if text_body = "" then strip_html hb else text_body
      (if fallback_text = "" then "(no text)" else fallback_text, some hb)
    | _, _ => (if text_body = "" then "(no text)" else text_body, none)
  ({ received := rcv.1
     fromAddr := from_addr
     toAddr := to_addr
     msgid := msgid
     date := date
     xMailer := "email_builder/1.0"
     subject := subject
     textPart := bodyParts.1
     htmlPart := bodyParts.2
     attachments := attach_paths.map (fun ap =>
       ((guess_mime_type ap.1).1, (guess_mime_type ap.1).2, ap.1, ap.2)) }, bits.2)

/-- A linear rendering of the composed message: headers in the insertion
order of `build_email`, then the body parts and attachments.  Multipart
boundary markers are abstracted away: CPython draws them from the seeded
global generator at flatten time, adding no further environment dependence. -/
def serializeMessage (m : ComposedMessage) : String :=
  String.intercalate "\x0d\n"
    ((m.received.map (fun r => "Received: " ++ r)) ++
     ["From: " ++ m.fromAddr, "To: " ++ m.toAddr, "Message-ID: " ++ m.msgid,
      "Date: " ++ m.date, "X-Mailer: " ++ m.xMailer, "Subject: " ++ m.subject, "",
      m.textPart] ++
     (match m.htmlPart with
      | some hb => ["", hb]
      | none => []) ++
     m.attachments.map (fun a => a.2.2.1 ++ ": " ++ a.2.2.2))

/-!  ## Generation orchestrator (cli.py lines 446-582)  -/

/-- The `GenerationConfig` as assembled by `load_config` (cli.py lines
191-227): the business-hours triple is present exactly when a date range is
configured, but `run_generation` re-checks each field (cli.py line 551). -/
structure Config where
  html_pct : Nat
  attach_pct : Nat
  subject_len : Nat
  num_emails : Nat
  selection_mode : SelMode
  max_attachments : Nat
  seed : Option Nat
  date_start : Option Int
  date_end : Option Int
  business : Option (Nat × Nat × Nat)

/-- The input pools, loaded once per run (cli.py lines 451-456); body and
HTML pools carry file contents, attachments carry (filename, bytes). -/
structure Pools where
  to_addrs : List String
  from_addrs : List String
  relay_hosts : List String
  text_files : List String
  html_files : List String
  attach_files : List (String × String)

def KEY_FROM : Nat := 1
def KEY_TO : Nat := 2
def KEY_TEXT : Nat := 3
def KEY_HTML : Nat := 4
def KEY_ATTACH : Nat := 5

/-- The probability test `random.random() < pct / 100` (cli.py lines 504 and
536) with the 53-bit draw `m / 2 ^ 53`: stated as the equivalent integer
cross-product `m * 100 < pct * 2 ^ 53` (both denominators are positive, so
`m / 2 ^ 53 < pct / 100` iff `m * 100 < pct * 2 ^ 53`). -/
def randBelowPct (g : RandGen) (pct : Nat) : Bool × RandGen :=
  let p := g.next
  (decide ((p.1 % 2 ^ 53) * 100 < pct * 2 ^ 53), p.2)

/-- Python's `f"{i:06d}"` for `i ≥ 0`. -/
def pad6 (n : Nat) : String :=
  let s := toString n
  String.mk (List.replicate (6 - s.length) '0' ++ s.toList)

/-- The output name `f"email_{i:06d}.eml"` (cli.py line 570). -/
def emlName (i : Nat) : String := "email_" ++ pad6 i ++ ".eml"

/-- Models `random.sample(xs, k)`'s contract: `k` draws without replacement
(each draw removes the chosen position), deterministic in the generator. -/
def pySample {α : Type} : RandGen → List α → Nat → List α × RandGen
  | g, _, 0 => ([], g)
  | g, xs, k + 1 =>
    if h : xs.length = 0 then ([], g)
    else
      let p := g.next
      let i := p.1 % xs.length
      let x := xs.get ⟨i, Nat.mod_lt _ (Nat.pos_of_ne_zero h)⟩
      let r := pySample p.2 (xs.eraseIdx i) k
      (x :: r.1, r.2)

/-- The `while len(attach_list) < count: attach_list.append(random.choice(...))`
loop of cli.py lines 546-547: `k` further draws with replacement. -/
def fillChoices {α : Type} (pool : List α) (h : pool ≠ []) :
    Nat → RandGen → List α × RandGen
  | 0, g => ([], g)
  | k + 1, g =>
    let c := choiceNE g pool h
    let r := fillChoices pool h k c.2
    (c.1 :: r.1, r.2)

/-- The body-selection block of the loop (cli.py lines 505-533), given the
already-decided `choose_html` flag: returns (is_html, chosen_text,
chosen_html).  Pools carry contents, so loading is total and the
`TemplateLoadError` recovery paths are not exercised. -/
def pickContent (pools : Pools) (choose_html0 : Bool) (st : Selector) (g : RandGen) :
    Except String ((Bool × String × Option String) × Selector × RandGen) :=
  if choose_html0 then
    match st.choose g KEY_HTML pools.html_files with
    | .error e => .error e
    | .ok (hb, st', g') => .ok ((true, "", some hb), st', g')
  else if pools.text_files = [] then
    match st.choose g KEY_HTML pools.html_files with
    | .error e => .error e
    | .ok (hb, st', g') => .ok ((false, strip_html hb, some hb), st', g')
  else
    match st.choose g KEY_TEXT pools.text_files with
    | .error e => .error e
    | .ok (tb, st', g') => .ok ((false, tb, none), st', g')

/-- The attachment-selection block (cli.py lines 535-547): the probability
draw happens only when the pool is non-empty (`attach_files and ...`
short-circuits); linear mode repeats `choose`, random mode samples without
replacement up to the pool size and with replacement beyond it. -/
def pickAttachments (cfg : Config) (pools : Pools) (st : Selector) (g : RandGen) :
    Except String (List (String × String) × Selector × RandGen) :=
  if hA : pools.attach_files = [] then .ok ([], st, g)
  else
    let adraw := randBelowPct g cfg.attach_pct
    if adraw.1 then
      match weighted_choice adraw.2 ATTACH_COUNT_DIST cfg.max_attachments with
      | .error e => .error e
      | .ok (count, g') =>
        if cfg.selection_mode = .linear then
          let r := chooseN KEY_ATTACH pools.attach_files count st g'
          .ok (r.1, r.2.1, r.2.2)
        else if count ≤ pools.attach_files.length then
          let r := pySample g' pools.attach_files count
          .ok (r.1, st, r.2)
        else
          let r := fillChoices pools.attach_files hA (count - pools.attach_files.length) g'
          .ok (pools.attach_files ++ r.1, st, r.2)
    else .ok ([], st, adraw.2)

/-- The send-timestamp block (cli.py lines 549-556): weighted sampling when
the business fields are present, plain range sampling otherwise, no
timestamp when no date range is configured. -/
def pickDate (cfg : Config) (g : RandGen) : Except String (Option Int × RandGen) :=
  match cfg.date_start, cfg.date_end with
  | some ds, some de =>
    (match cfg.business with
     | some bw =>
       match random_date_weighted g ds de bw.1 bw.2.1 bw.2.2 with
       | .error e => .error e
       | .ok (t, g') => .ok (some t, g')
     | none =>
       match random_date_in_range g ds de with
       | .error e => .error e
       | .ok (t, g') => .ok (some t, g'))
  | _, _ => .ok (none, g)

/-- One iteration of the generation loop (cli.py lines 500-577), producing
the artifact (target name, composed message). -/
def genOne (cfg : Config) (pools : Pools) (env : Env) (i : Nat) (st : Selector)
    (g : RandGen) : Except String ((String × ComposedMessage) × Selector × RandGen) :=
  match st.choose g KEY_FROM pools.from_addrs with
  | .error e => .error e
  | .ok (from_addr, st1, g1) =>
    match st1.choose g1 KEY_TO pools.to_addrs with
    | .error e => .error e
    | .ok (to_addr, st2, g2) =>
      let hdraw := randBelowPct g2 cfg.html_pct
      let choose_html0 := hdraw.1 && !pools.html_files.isEmpty
      match pickContent pools choose_html0 st2 hdraw.2 with
      | .error e => .error e
      | .ok (content, st3, g3) =>
        match pickAttachments cfg pools st3 g3 with
        | .error e => .error e
        | .ok (attach_list, st4, g4) =>
          match pickDate cfg g4 with
          | .error e => .error e
          | .ok (msg_date, g5) =>
            let be := build_email env g5 from_addr to_addr content.1 cfg.subject_len
              content.2.1 content.2.2 attach_list pools.relay_hosts msg_date
            .ok ((emlName i, be.1), st4, be.2)

/-- The `for i in range(1, total + 1)` loop (cli.py lines 500-580), indices
`i .. i + n - 1`; a raised exception aborts the run. -/
def genLoop (cfg : Config) (pools : Pools) (env : Env) :
    Nat → Nat → Selector → RandGen → Except String (List (String × ComposedMessage))
  | 0, _, _, _ => .ok []
  | n + 1, i, st, g =>
    match genOne cfg pools env i st g with
    | .error e => .error e
    | .ok (art, st', g') =>
      match genLoop cfg pools env n (i + 1) st' g' with
      | .error e => .error e
      | .ok rest => .ok (art :: rest)

/-- Models `run_generation` (cli.py lines 446-582): seed the generator if a
seed is supplied (otherwise the ambient generator `g0` stands in for the
unseeded entropy), validate the pools (`sys.exit` is the error case), then
run the loop from index 1. -/
def run_generation (cfg : Config) (pools : Pools) (env : Env) (g0 : RandGen) :
    Except String (List (String × ComposedMessage)) :=
  let g := match cfg.seed with
    | some s => seedRng s
    | none => g0
  if pools.to_addrs = [] then .error "Recipient list is empty."
  else if pools.from_addrs = [] then .error "Sender list is empty."
  else if pools.text_files = [] ∧ pools.html_files = [] then
    .error "Both body_dir (text) and html_dir are empty. Provide at least one."
  else
    genLoop cfg pools env cfg.num_emails 1 (Selector.init cfg.selection_mode) g

/-- The run's output artifacts as (target name, serialized bytes). -/
def run_artifacts (cfg : Config) (pools : Pools) (env : Env) (g0 : RandGen) :
    Except String (List (String × String)) :=
  (run_generation cfg pools env g0).map (List.map (fun a => (a.1, serializeMessage a.2)))

/-- Every field of a composed message except the Message-ID. -/
def msgCore (m : ComposedMessage) :
    List String × String × String × String × String × String × String ×
      Option String × List (String × String × String × String) :=
  (m.received, m.fromAddr, m.toAddr, m.date, m.xMailer, m.subject, m.textPart,
   m.htmlPart, m.attachments)

/-- An artifact with its message stripped of the Message-ID. -/
def artCore (a : String × ComposedMessage) := (a.1, msgCore a.2)

/-- Decidable equality for `Except` results (needed to evaluate run outcomes
on concrete inputs). -/
def exceptDecEq {ε α : Type} [DecidableEq ε] [DecidableEq α] :
    DecidableEq (Except ε α) := fun a b =>
  match a, b with
  | .error e, .error e' =>
    if h : e = e' then isTrue (by rw [h]) else isFalse (by intro hc; cases hc; exact h rfl)
  | .error _, .ok _ => isFalse (by intro hc; cases hc)
  | .ok _, .error _ => isFalse (by intro hc; cases hc)
  | .ok v, .ok v' =>
    if h : v = v' then isTrue (by rw [h]) else isFalse (by intro hc; cases hc; exact h rfl)

instance {ε α : Type} [DecidableEq ε] [DecidableEq α] : DecidableEq (Except ε α) :=
  exceptDecEq

/-!  ## Lemmas about the orchestrator  -/

theorem weighted_choice_ok (g : RandGen) (max_cap : Nat) (hcap : 1 ≤ max_cap) :
    ∃ c g', weighted_choice g ATTACH_COUNT_DIST max_cap = .ok (c, g') := by
  unfold weighted_choice
  have hfil : ATTACH_COUNT_DIST.filter (fun cw => cw.1 ≤ max_cap) ≠ [] := by
    have hmem : ((1 : Nat), (80 / 100 : ℚ)) ∈
        ATTACH_COUNT_DIST.filter (fun cw => cw.1 ≤ max_cap) := by
      rw [List.mem_filter]
      exact ⟨by simp [ATTACH_COUNT_DIST], by simpa using hcap⟩
    intro hcon
    rw [hcon] at hmem
    simp at hmem
  rw [dif_neg hfil]
  by_cases ht : ((ATTACH_COUNT_DIST.filter (fun cw => cw.1 ≤ max_cap)).map Prod.snd).sum ≤ 0
  · rw [if_pos ht]; exact ⟨_, _, rfl⟩
  · rw [if_neg ht]; exact ⟨_, _, rfl⟩

theorem pickContent_ok (pools : Pools) (b : Bool) (st : Selector) (g : RandGen)
    (himp : b = true → pools.html_files ≠ [])
    (hbody : ¬(pools.text_files = [] ∧ pools.html_files = [])) :
    ∃ content st' g', pickContent pools b st g = .ok (content, st', g') := by
  unfold pickContent
  cases b with
  | true =>
    obtain ⟨v, s', g', hok⟩ := choose_ok_of_ne_nil st g KEY_HTML pools.html_files (himp rfl)
    rw [if_pos rfl, hok]
    exact ⟨_, _, _, rfl⟩
  | false =>
    rw [if_neg (by simp)]
    by_cases ht : pools.text_files = []
    · have hh : pools.html_files ≠ [] := fun hcon => hbody ⟨ht, hcon⟩
      obtain ⟨v, s', g', hok⟩ := choose_ok_of_ne_nil st g KEY_HTML pools.html_files hh
      rw [if_pos ht, hok]
      exact ⟨_, _, _, rfl⟩
    · obtain ⟨v, s', g', hok⟩ := choose_ok_of_ne_nil st g KEY_TEXT pools.text_files ht
      rw [if_neg ht, hok]
      exact ⟨_, _, _, rfl⟩

theorem pickAttachments_ok (cfg : Config) (pools : Pools) (st : Selector) (g : RandGen)
    (hmax : 1 ≤ cfg.max_attachments) :
    ∃ al st' g', pickAttachments cfg pools st g = .ok (al, st', g') := by
  unfold pickAttachments
  by_cases hA : pools.attach_files = []
  · rw [dif_pos hA]; exact ⟨_, _, _, rfl⟩
  · rw [dif_neg hA]
    dsimp only
    by_cases hp : (randBelowPct g cfg.attach_pct).1 = true
    · rw [if_pos hp]
      obtain ⟨c, g', hw⟩ :=
        weighted_choice_ok (randBelowPct g cfg.attach_pct).2 cfg.max_attachments hmax
      rw [hw]
      dsimp only
      by_cases hm : cfg.selection_mode = .linear
      · rw [if_pos hm]; exact ⟨_, _, _, rfl⟩
      · rw [if_neg hm]
        by_cases hc : c ≤ pools.attach_files.length
        · rw [if_pos hc]; exact ⟨_, _, _, rfl⟩
        · rw [if_neg hc]; exact ⟨_, _, _, rfl⟩
    · rw [if_neg hp]; exact ⟨_, _, _, rfl⟩

theorem pickDate_ok (cfg : Config) (g : RandGen)
    (hdate : ∀ ds de, cfg.date_start = some ds → cfg.date_end = some de → ds ≤ de) :
    ∃ md g', pickDate cfg g = .ok (md, g') := by
  unfold pickDate
  cases hds : cfg.date_start with
  | none => exact ⟨_, _, rfl⟩
  | some ds =>
    cases hde : cfg.date_end with
    | none => exact ⟨_, _, rfl⟩
    | some de =>
      have hle := hdate ds de hds hde
      dsimp only
      cases hbw : cfg.business with
      | some bw =>
        dsimp only
        have hcond : ¬ ds / 86400 > de / 86400 :=
          not_lt.mpr (Int.ediv_le_ediv (by norm_num) hle)
        unfold random_date_weighted
        rw [if_neg hcond]
        exact ⟨_, _, rfl⟩
      | none =>
        dsimp only
        have hcond : ¬ de - ds < 0 := by omega
        unfold random_date_in_range
        rw [if_neg hcond]
        exact ⟨_, _, rfl⟩

theorem genOne_ok (cfg : Config) (pools : Pools) (env : Env)
    (hto : pools.to_addrs ≠ []) (hfrom : pools.from_addrs ≠ [])
    (hbody : ¬(pools.text_files = [] ∧ pools.html_files = []))
    (hmax : 1 ≤ cfg.max_attachments)
    (hdate : ∀ ds de, cfg.date_start = some ds → cfg.date_end = some de → ds ≤ de)
    (i : Nat) (st : Selector) (g : RandGen) :
    ∃ m st' g', genOne cfg pools env i st g = .ok ((emlName i, m), st', g') := by
  obtain ⟨fa, st1, g1, h1⟩ := choose_ok_of_ne_nil st g KEY_FROM pools.from_addrs hfrom
  obtain ⟨ta, st2, g2, h2⟩ := choose_ok_of_ne_nil st1 g1 KEY_TO pools.to_addrs hto
  obtain ⟨content, st3, g3, h3⟩ := pickContent_ok pools
    ((randBelowPct g2 cfg.html_pct).1 && !pools.html_files.isEmpty)
    st2 (randBelowPct g2 cfg.html_pct).2
    (fun hbt => by
      have hb2 := (Bool.and_eq_true _ _).mp hbt |>.2
      simpa using hb2)
    hbody
  obtain ⟨al, st4, g4, h4⟩ := pickAttachments_ok cfg pools st3 g3 hmax
  obtain ⟨md, g5, h5⟩ := pickDate_ok cfg g4 hdate
  refine ⟨(build_email env g5 fa ta content.1 cfg.subject_len content.2.1 content.2.2 al
      pools.relay_hosts md).1, st4,
    (build_email env g5 fa ta content.1 cfg.subject_len content.2.1 content.2.2 al
      pools.relay_hosts md).2, ?_⟩
  unfold genOne
  rw [h1]
  dsimp only
  rw [h2]
  dsimp only
  rw [h3]
  dsimp only
  rw [h4]
  dsimp only
  rw [h5]

theorem genLoop_ok (cfg : Config) (pools : Pools) (env : Env)
    (hto : pools.to_addrs ≠ []) (hfrom : pools.from_addrs ≠ [])
    (hbody : ¬(pools.text_files = [] ∧ pools.html_files = []))
    (hmax : 1 ≤ cfg.max_attachments)
    (hdate : ∀ ds de, cfg.date_start = some ds → cfg.date_end = some de → ds ≤ de) :
    ∀ (n i : Nat) (st : Selector) (g : RandGen),
      ∃ arts, genLoop cfg pools env n i st g = .ok arts ∧
        arts.map Prod.fst = (List.range n).map (fun j => emlName (i + j)) := by
  intro n
  induction n with
  | zero => intro i st g; exact ⟨[], rfl, by simp⟩
  | succ n ih =>
    intro i st g
    obtain ⟨m, st', g', hone⟩ := genOne_ok cfg pools env hto hfrom hbody hmax hdate i st g
    obtain ⟨arts, hok, hnames⟩ := ih (i + 1) st' g'
    refine ⟨(emlName i, m) :: arts, ?_, ?_⟩
    · unfold genLoop
      rw [hone]
      dsimp only
      rw [hok]
    · simp only [List.map_cons, hnames, List.range_succ_eq_map, List.map_map]
      refine congrArg₂ List.cons (by rw [Nat.add_zero]) ?_
      apply List.map_congr_left
      intro j _
      show emlName (i + 1 + j) = emlName (i + (j + 1))
      congr 1
      omega

/-!  ## Claim C9  -/

/-- **C9**: for every valid configuration (non-empty recipient and sender
pools, at least one body pool non-empty, `max_attachments ≥ 1`, a
well-ordered date range when one is given) the generation loop succeeds and
emits exactly `num_emails` artifacts whose target names are the sequential,
gap-free, zero-padded `email_000001.eml .. email_N.eml`. -/
theorem claim_C9 (cfg : Config) (pools : Pools) (env : Env) (g0 : RandGen)
    (hto : pools.to_addrs ≠ []) (hfrom : pools.from_addrs ≠ [])
    (hbody : ¬(pools.text_files = [] ∧ pools.html_files = []))
    (hmax : 1 ≤ cfg.max_attachments)
    (hdate : ∀ ds de, cfg.date_start = some ds → cfg.date_end = some de → ds ≤ de) :
    ∃ arts, run_generation cfg pools env g0 = .ok arts ∧
      arts.length = cfg.num_emails ∧
      arts.map Prod.fst = (List.range cfg.num_emails).map (fun j => emlName (j + 1)) := by
  unfold run_generation
  dsimp only
  rw [if_neg hto, if_neg hfrom, if_neg hbody]
  obtain ⟨arts, hok, hnames⟩ := genLoop_ok cfg pools env hto hfrom hbody hmax hdate
    cfg.num_emails 1 (Selector.init cfg.selection_mode)
    (match cfg.seed with
     | some s => seedRng s
     | none => g0)
  refine ⟨arts, hok, ?_, ?_⟩
  · have hlen := congrArg List.length hnames
    simpa using hlen
  · rw [hnames]
    apply List.map_congr_left
    intro j _
    show emlName (1 + j) = emlName (j + 1)
    congr 1
    omega

/-- Witness for C9: three emails from singleton pools, seed 0. -/
theorem claim_C9_witness :
    ∃ arts, run_generation
        { html_pct := 0, attach_pct := 0, subject_len := 50, num_emails := 3,
          selection_mode := .random, max_attachments := 4, seed := some 0,
          date_start := some 0, date_end := some 86399,
          business := some (540, 1020, 100) }
        { to_addrs := ["to@example.com"], from_addrs := ["from@example.com"],
          relay_hosts := ["relay.example"], text_files := ["Hello world"],
          html_files := [], attach_files := [] }
        ⟨0, 1, 0⟩ ⟨fun _ => 0, 0⟩ = .ok arts ∧
      arts.length = 3 ∧
      arts.map Prod.fst = (List.range 3).map (fun j => emlName (j + 1)) :=
  claim_C9 _ _ _ _ (by simp) (by simp) (by simp) (by norm_num)
    (fun ds de hds hde => by cases hds; cases hde; norm_num)

/-!  ## Claim C1  -/

theorem pickDate_some (cfg : Config) {g : RandGen} {md : Option Int} {g' : RandGen}
    (hds : cfg.date_start.isSome) (hde : cfg.date_end.isSome)
    (h : pickDate cfg g = .ok (md, g')) : ∃ t, md = some t := by
  obtain ⟨ds, hds'⟩ := Option.isSome_iff_exists.mp hds
  obtain ⟨de, hde'⟩ := Option.isSome_iff_exists.mp hde
  unfold pickDate at h
  rw [hds', hde'] at h
  dsimp only at h
  cases hbw : cfg.business with
  | some bw =>
    rw [hbw] at h
    dsimp only at h
    cases hw : random_date_weighted g ds de bw.1 bw.2.1 bw.2.2 with
    | error e => rw [hw] at h; cases h
    | ok p =>
      obtain ⟨t, g2⟩ := p
      rw [hw] at h
      cases h
      exact ⟨t, rfl⟩
  | none =>
    rw [hbw] at h
    dsimp only at h
    cases hw : random_date_in_range g ds de with
    | error e => rw [hw] at h; cases h
    | ok p =>
      obtain ⟨t, g2⟩ := p
      rw [hw] at h
      cases h
      exact ⟨t, rfl⟩

/-- With a supplied base date the current-clock argument of
`gen_received_headers` is dead (`base_date or now` picks the base date). -/
theorem gen_received_headers_basedate (g : RandGen) (hosts : List String)
    (hmin hmax : Int) (d now now' : Int) :
    gen_received_headers g hosts hmin hmax (some d) now =
      gen_received_headers g hosts hmin hmax (some d) now' := by
  unfold gen_received_headers
  by_cases h : hosts = []
  · rw [dif_pos h, dif_pos h]
  · rw [dif_neg h, dif_neg h]
    rfl

/-- With a supplied send date, everything in the assembled message except the
Message-ID — and the post-assembly generator state — is independent of the
process environment (clock, pid, timezone). -/
theorem build_email_core (env env' : Env) (g : RandGen) (fa ta : String) (ih : Bool)
    (sl : Nat) (tb : String) (hb : Option String) (ap : List (String × String))
    (rh : List String) (d : Int) :
    msgCore (build_email env g fa ta ih sl tb hb ap rh (some d)).1 =
      msgCore (build_email env' g fa ta ih sl tb hb ap rh (some d)).1 ∧
    (build_email env g fa ta ih sl tb hb ap rh (some d)).2 =
      (build_email env' g fa ta ih sl tb hb ap rh (some d)).2 := by
  constructor
  all_goals
    unfold build_email
    rw [gen_received_headers_basedate g rh 1 3 d ((env.timeC : Int) / 100)
      ((env'.timeC : Int) / 100)]
    try rfl

theorem genOne_core_env (cfg : Config) (pools : Pools) (env env' : Env)
    (i : Nat) (st : Selector) (g : RandGen)
    (hds : cfg.date_start.isSome) (hde : cfg.date_end.isSome) :
    (genOne cfg pools env i st g).map (fun r => (artCore r.1, r.2)) =
      (genOne cfg pools env' i st g).map (fun r => (artCore r.1, r.2)) := by
  unfold genOne
  cases h1 : st.choose g KEY_FROM pools.from_addrs with
  | error e => rfl
  | ok p =>
    obtain ⟨fa, st1, g1⟩ := p
    dsimp only
    cases h2 : st1.choose g1 KEY_TO pools.to_addrs with
    | error e => rfl
    | ok q =>
      obtain ⟨ta, st2, g2⟩ := q
      dsimp only
      cases h3 : pickContent pools
          ((randBelowPct g2 cfg.html_pct).1 && !pools.html_files.isEmpty)
          st2 (randBelowPct g2 cfg.html_pct).2 with
      | error e => rfl
      | ok c3 =>
        obtain ⟨content, st3, g3⟩ := c3
        dsimp only
        cases h4 : pickAttachments cfg pools st3 g3 with
        | error e => rfl
        | ok c4 =>
          obtain ⟨al, st4, g4⟩ := c4
          dsimp only
          cases h5 : pickDate cfg g4 with
          | error e => rfl
          | ok c5 =>
            obtain ⟨md, g5⟩ := c5
            obtain ⟨t, ht⟩ := pickDate_some cfg hds hde h5
            subst ht
            dsimp only [Except.map, artCore]
            have hbe := build_email_core env env' g5 fa ta content.1 cfg.subject_len
              content.2.1 content.2.2 al pools.relay_hosts t
            rw [hbe.1, hbe.2]

theorem genLoop_core_env (cfg : Config) (pools : Pools)
    (hds : cfg.date_start.isSome) (hde : cfg.date_end.isSome) :
    ∀ (n i : Nat) (st : Selector) (g : RandGen) (env env' : Env),
      (genLoop cfg pools env n i st g).map (List.map artCore) =
        (genLoop cfg pools env' n i st g).map (List.map artCore) := by
  intro n
  induction n with
  | zero => intros; rfl
  | succ n ih =>
    intro i st g env env'
    have hone := genOne_core_env cfg pools env env' i st g hds hde
    unfold genLoop
    cases h1 : genOne cfg pools env i st g with
    | error e =>
      rw [h1] at hone
      cases h2 : genOne cfg pools env' i st g with
      | error e2 =>
        rw [h2] at hone
        simp only [Except.map] at hone
        cases hone
        rfl
      | ok q =>
        rw [h2] at hone
        simp [Except.map] at hone
    | ok p =>
      cases h2 : genOne cfg pools env' i st g with
      | error e =>
        rw [h1, h2] at hone
        simp [Except.map] at hone
      | ok q =>
        rw [h1, h2] at hone
        simp only [Except.map, Except.ok.injEq] at hone
        obtain ⟨a, st', g'⟩ := p
        obtain ⟨b, st2', g2'⟩ := q
        have hac : artCore a = artCore b := congrArg Prod.fst hone
        have hst : st' = st2' := congrArg (fun r => r.2.1) hone
        have hg : g' = g2' := congrArg (fun r => r.2.2) hone
        subst hst
        subst hg
        dsimp only
        have hrest := ih (i + 1) st' g' env env'
        cases hr1 : genLoop cfg pools env n (i + 1) st' g' with
        | error e =>
          rw [hr1] at hrest
          cases hr2 : genLoop cfg pools env' n (i + 1) st' g' with
          | error e2 =>
            rw [hr2] at hrest
            simp only [Except.map] at hrest
            cases hrest
            rfl
          | ok rest2 =>
            rw [hr2] at hrest
            simp [Except.map] at hrest
        | ok rest =>
          cases hr2 : genLoop cfg pools env' n (i + 1) st' g' with
          | error e2 =>
            rw [hr1, hr2] at hrest
            simp [Except.map] at hrest
          | ok rest2 =>
            rw [hr1, hr2] at hrest
            simp only [Except.map, Except.ok.injEq] at hrest
            simp only [Except.map, Except.ok.injEq, List.map_cons]
            rw [hac, hrest]

/-- **C1** (amended): with a supplied seed and a configured date range, two
runs that share the seed and the input pools agree on every byte of every
artifact except the Message-ID header: all selection, temporal, relay and
body draws come from the single seeded generator (even the ambient
pre-seeding generator states `g0`, `g0'` are irrelevant), while the
Message-ID mixes in the wall clock and the process id.  Byte-identical
reproduction therefore fails in general — see the counterexample. -/
theorem claim_C1_amended (cfg : Config) (pools : Pools) (env env' : Env)
    (g0 g0' : RandGen) (s : Nat) (ds de : Int)
    (hs : cfg.seed = some s) (hds : cfg.date_start = some ds)
    (hde : cfg.date_end = some de) :
    (run_generation cfg pools env g0).map (List.map artCore) =
      (run_generation cfg pools env' g0').map (List.map artCore) := by
  unfold run_generation
  rw [hs]
  dsimp only
  by_cases h1 : pools.to_addrs = []
  · rw [if_pos h1, if_pos h1]
  · rw [if_neg h1, if_neg h1]
    by_cases h2 : pools.from_addrs = []
    · rw [if_pos h2, if_pos h2]
    · rw [if_neg h2, if_neg h2]
      by_cases h3 : pools.text_files = [] ∧ pools.html_files = []
      · rw [if_pos h3, if_pos h3]
      · rw [if_neg h3, if_neg h3]
        exact genLoop_core_env cfg pools (by rw [hds]; rfl) (by rw [hde]; rfl)
          cfg.num_emails 1 (Selector.init cfg.selection_mode) (seedRng s) env env'

set_option maxRecDepth 8000 in
/-- **C1** (counterexample to the claim as stated): same seed (0), same pools,
same configuration — but two runs at wall-clock times 0 and 1 seconds
produce different serialized artifacts, because `make_msgid` folds the clock
(and pid) into the Message-ID header.  The claimed byte-identical
reproducibility from the seed alone is false. -/
theorem claim_C1_counterexample :
    run_artifacts
        { html_pct := 0, attach_pct := 0, subject_len := 50, num_emails := 1,
          selection_mode := .random, max_attachments := 4, seed := some 0,
          date_start := some 0, date_end := some 86399,
          business := some (540, 1020, 100) }
        { to_addrs := ["to@example.com"], from_addrs := ["from@example.com"],
          relay_hosts := ["relay.example"], text_files := ["Hello world"],
          html_files := [], attach_files := [] }
        ⟨0, 1, 0⟩ ⟨fun _ => 0, 0⟩ ≠
      run_artifacts
        { html_pct := 0, attach_pct := 0, subject_len := 50, num_emails := 1,
          selection_mode := .random, max_attachments := 4, seed := some 0,
          date_start := some 0, date_end := some 86399,
          business := some (540, 1020, 100) }
        { to_addrs := ["to@example.com"], from_addrs := ["from@example.com"],
          relay_hosts := ["relay.example"], text_files := ["Hello world"],
          html_files := [], attach_files := [] }
        ⟨100, 1, 0⟩ ⟨fun _ => 0, 0⟩ := by
  decide

/-- Witness for the amended C1 at the concrete seeded configuration. -/
theorem claim_C1_witness :
    (run_generation
        { html_pct := 0, attach_pct := 0, subject_len := 50, num_emails := 1,
          selection_mode := .random, max_attachments := 4, seed := some 0,
          date_start := some 0, date_end := some 86399,
          business := some (540, 1020, 100) }
        { to_addrs := ["to@example.com"], from_addrs := ["from@example.com"],
          relay_hosts := ["relay.example"], text_files := ["Hello world"],
          html_files := [], attach_files := [] }
        ⟨0, 1, 0⟩ ⟨fun _ => 0, 0⟩).map (List.map artCore) =
      (run_generation
        { html_pct := 0, attach_pct := 0, subject_len := 50, num_emails := 1,
          selection_mode := .random, max_attachments := 4, seed := some 0,
          date_start := some 0, date_end := some 86399,
          business := some (540, 1020, 100) }
        { to_addrs := ["to@example.com"], from_addrs := ["from@example.com"],
          relay_hosts := ["relay.example"], text_files := ["Hello world"],
          html_files := [], attach_files := [] }
        ⟨100, 1, 0⟩ ⟨fun _ => 0, 0⟩).map (List.map artCore) :=
  claim_C1_amended _ _ _ _ _ _ 0 0 86399 rfl rfl rfl

end EmailBuilder
